import Mathlib

/-!
Verification of the completion-client wrapper (`langchain/llms/openai.py`,
class `OpenAI`) and of the two-input prompt chain (`NatBotChain`, exercised
by `tests/unit_tests/chains/test_natbot.py`).

The `OpenAI` class is embedded from the source: a pydantic v1 `BaseModel`
with `Extra.forbid` and one post `root_validator` (`validate_environment`).
Pydantic v1 construction semantics (`validate_model`): field values are
taken or defaulted, unrecognized keys are recorded as errors under
`Extra.forbid`, then every post root validator with `skip_on_failure =
false` (the default of a bare `root_validator()`) runs even when errors
were already recorded, and finally a validation error carrying the
collected list is raised when the list is nonempty.

The chain itself (`NatBotChain`) is not among the available sources; it is
modelled from the specification's description of `BoundedPromptChain`.
-/

namespace LangChain

/-- A single generated choice of the remote response; `__call__` reads its
`text` field. -/
structure Choice where
  text : String
  deriving Repr, DecidableEq

/-- Remote response shape: a collection of `choices`. -/
structure Response where
  choices : List Choice
  deriving Repr, DecidableEq

/-- The exact parameter set `OpenAI.__call__` passes to `client.create`:
`model`, `prompt`, `stop` merged with the seven generation parameters of
`_default_params`. -/
structure Request where
  model : String
  prompt : String
  stop : Option (List String)
  temperature : ℚ
  max_tokens : ℤ
  top_p : ℤ
  frequency_penalty : ℤ
  presence_penalty : ℤ
  n : ℤ
  best_of : ℤ
  deriving Repr, DecidableEq

/-- The context `validate_environment` consults: the process environment,
whether the `openai` package is importable, and the completion capability
(`openai.Completion.create`) that import would resolve. -/
structure Env where
  vars : List (String × String)
  openaiInstalled : Bool
  completionCreate : Request → Response

/-- `key in os.environ`. -/
def Env.hasKey (e : Env) (k : String) : Bool :=
  e.vars.any fun p => p.1 == k

/-- The `OpenAI` wrapper: its configuration fields with the source's
defaults, plus the `client` handle resolved once at construction. -/
structure OpenAI where
  client : Request → Response
  model_name : String := "text-davinci-002"
  temperature : ℚ := 0.7
  max_tokens : ℤ := 256
  top_p : ℤ := 1
  frequency_penalty : ℤ := 0
  presence_penalty : ℤ := 0
  n : ℤ := 1
  best_of : ℤ := 1

/-- Keyword arguments supplied at construction: an optional override for
each recognized field, plus the names of any unrecognized fields supplied
(rejected under `Extra.forbid`). -/
structure OpenAIArgs where
  model_name : Option String := none
  temperature : Option ℚ := none
  max_tokens : Option ℤ := none
  top_p : Option ℤ := none
  frequency_penalty : Option ℤ := none
  presence_penalty : Option ℤ := none
  n : Option ℤ := none
  best_of : Option ℤ := none
  extra_fields : List String := []

/-- The construction-time failure taxonomy: unrecognized configuration
field (`Extra.forbid`), missing `OPENAI_API_KEY`, or missing `openai`
package. -/
inductive ConfigurationError where
  | unrecognizedField
  | missingCredential
  | missingDependency
  deriving Repr, DecidableEq

/-- Construction, following pydantic v1 `validate_model`: unrecognized
fields are recorded as errors; the post root validator
`validate_environment` then runs regardless (its `skip_on_failure` is
false), first checking `OPENAI_API_KEY` in the environment and only then
resolving the `openai` dependency into the `client` handle; construction
fails exactly when the collected error list is nonempty.  The second
component records whether the environment was read (it always is, because
the root validator is never skipped).  No remote request is issued:
`completionCreate` is stored, never applied.  `rootErrors` is the error
contribution of the root validator: the missing-credential check comes
first, the dependency resolution only after it. -/
def rootErrors (env : Env) : List ConfigurationError :=
  if env.hasKey "OPENAI_API_KEY" then
    if env.openaiInstalled then [] else [ConfigurationError.missingDependency]
  else [ConfigurationError.missingCredential]

/-- Construction: the collected error list (unrecognized-field errors
first, then the root validator's) decides failure; on success every field
is the supplied value or the source's default and `client` is the resolved
capability. -/
def OpenAI.construct (env : Env) (args : OpenAIArgs) :
    Except (List ConfigurationError) OpenAI × Bool :=
  let errors :=
    (args.extra_fields.map fun _ => ConfigurationError.unrecognizedField) ++ rootErrors env
  if errors = [] then
    (Except.ok
      { client := env.completionCreate
        model_name := args.model_name.getD "text-davinci-002"
        temperature := args.temperature.getD 0.7
        max_tokens := args.max_tokens.getD 256
        top_p := args.top_p.getD 1
        frequency_penalty := args.frequency_penalty.getD 0
        presence_penalty := args.presence_penalty.getD 0
        n := args.n.getD 1
        best_of := args.best_of.getD 1 }, true)
  else (Except.error errors, true)

/-- The request `__call__` issues: `model`, `prompt`, `stop` merged with
`_default_params`, all taken from the wrapper's fields. -/
def OpenAI.requestOf (o : OpenAI) (prompt : String) (stop : Option (List String)) : Request :=
  { model := o.model_name
    prompt := prompt
    stop := stop
    temperature := o.temperature
    max_tokens := o.max_tokens
    top_p := o.top_p
    frequency_penalty := o.frequency_penalty
    presence_penalty := o.presence_penalty
    n := o.n
    best_of := o.best_of }

/-- `__call__`: issue one request to the held client and return the first
choice's text (`response["choices"][0]["text"]`); `none` models the
index error on an empty `choices`. -/
def OpenAI.call (o : OpenAI) (prompt : String) (stop : Option (List String)) : Option String :=
  ((o.client (o.requestOf prompt stop)).choices.head?).map Choice.text

/-- A sequence of calls on one wrapper: the requests actually issued,
paired with the returned results, in order.  The wrapper itself is never
modified. -/
def OpenAI.callSeq (o : OpenAI) :
    List (String × Option (List String)) → List (Request × Option String)
  | [] => []
  | (p, s) :: rest => (o.requestOf p s, o.call p s) :: o.callSeq rest

/-! ## The two-input prompt chain

The chain's implementation is not among the available sources (only its
test is); it is modelled from the specification of `BoundedPromptChain`.
Chain-side text is embedded as `List Char`, so lengths and truncation are
the list operations. -/

/-- Text processed by the chain, as a list of characters. -/
abbrev Str := List Char

/-- Modelled from the spec: the chain's fixed natural-language prompt
template, incorporating the stored objective, the first input and the
(possibly truncated) second input, in order, with fixed connecting text.
The exact wording of the template is not among the available sources; only
the order of the components and the fact that the connecting text is fixed
matter below. -/
def renderPrompt (objective url browserContent : Str) : Str :=
  "OBJECTIVE: ".toList ++ objective ++ "\nCURRENT URL: ".toList ++ url
    ++ "\nBROWSER CONTENT:\n".toList ++ browserContent ++ "\nYOUR COMMAND:".toList

/-- Modelled from the spec: the chain holds a prompt-to-text capability
(not owned), an objective string, and three configurable key names with
defaults "url", "browser_content", "response". -/
structure BoundedPromptChain where
  llm : Str → Str
  objective : Str
  input_url_key : String := "url"
  input_browser_content_key : String := "browser_content"
  output_key : String := "response"

/-- Modelled from the spec: the second input actually used for the final
prompt — truncated to its first 4200 characters when the rendered prompt
would exceed 10000 characters, otherwise unchanged.  The first input and
the objective are never modified. -/
def BoundedPromptChain.effectiveSecond (c : BoundedPromptChain) (first second : Str) : Str :=
  if 10000 < (renderPrompt c.objective first second).length then second.take 4200 else second

/-- Modelled from the spec: the final prompt text passed to the held
capability. -/
def BoundedPromptChain.finalPrompt (c : BoundedPromptChain) (first second : Str) : Str :=
  renderPrompt c.objective first (c.effectiveSecond first second)

/-- Modelled from the spec: `run` renders the prompt (truncating an
oversized second input), invokes the held capability with no stop
sequences, and returns a single-entry mapping from the configured output
key to the capability's returned string. -/
def BoundedPromptChain.run (c : BoundedPromptChain) (first second : Str) :
    List (String × Str) :=
  [(c.output_key, c.llm (c.finalPrompt first second))]

/-- The stub capability of `test_natbot.FakeLLM`: "foo" when the prompt
exceeds 10000 characters, else "bar". -/
def fakeLLM (prompt : Str) : Str :=
  if 10000 < prompt.length then "foo".toList else "bar".toList

/-- The test scenario's oversized input: "foo" repeated 10000 times
(30000 characters). -/
def fooRepeated : Str := (List.replicate 10000 "foo".toList).flatten

/-- The chain of `test_proper_inputs`: the stub capability and objective
"testing", with default key names. -/
def scenarioChain : BoundedPromptChain :=
  { llm := fakeLLM, objective := "testing".toList }

theorem fooRepeated_length : fooRepeated.length = 30000 := by
  rw [fooRepeated, List.length_flatten, List.map_replicate, List.sum_replicate]
  norm_num

/-! ## Chain theorems -/

/-- C1: for every call of `run` whose second input makes the rendered
prompt exceed 10000 characters, the final prompt passed to the held
capability is the template rendered with the objective and the first input
unmodified and the second input truncated to its first 4200 characters. -/
theorem run_truncates_long_second_input (c : BoundedPromptChain) (first second : Str)
    (h : 10000 < (renderPrompt c.objective first second).length) :
    c.run first second
      = [(c.output_key, c.llm (renderPrompt c.objective first (second.take 4200)))] := by
  simp only [BoundedPromptChain.run, BoundedPromptChain.finalPrompt,
    BoundedPromptChain.effectiveSecond, if_pos h]

/-- C1 witness: the truncation theorem applied to the scenario chain at a
12000-character second input. -/
theorem run_truncates_long_second_input_witness :
    scenarioChain.run [] (List.replicate 12000 'a')
      = [("response",
          scenarioChain.llm
            (renderPrompt scenarioChain.objective [] ((List.replicate 12000 'a').take 4200)))] :=
  run_truncates_long_second_input scenarioChain [] (List.replicate 12000 'a')
    (by simp only [renderPrompt, List.length_append, List.length_replicate]; omega)

/-- C2: at the inputs of `test_proper_inputs` — objective "testing", both
inputs "foo" repeated to 30000 characters — the spec-modelled chain
returns the mapping {"response": "foo"}, not the expected
{"response": "bar"}: the first input is passed unmodified, so the rendered
prompt still exceeds 10000 characters after the second input is
truncated. -/
theorem run_scenario_evaluates_to_foo :
    scenarioChain.run fooRepeated fooRepeated = [("response", "foo".toList)] := by
  have h1 : 10000 < (renderPrompt "testing".toList fooRepeated fooRepeated).length := by
    simp only [renderPrompt, List.length_append, fooRepeated_length]
    omega
  have h2 : 10000 <
      (renderPrompt "testing".toList fooRepeated (fooRepeated.take 4200)).length := by
    simp only [renderPrompt, List.length_append, List.length_take, fooRepeated_length]
    omega
  simp only [scenarioChain, BoundedPromptChain.run, BoundedPromptChain.finalPrompt,
    BoundedPromptChain.effectiveSecond, if_pos h1, fakeLLM, if_pos h2]

/-- C7: custom key names are used as the keys of `run`'s result mapping and
leave the rendered prompt identical to the default-key chain's. -/
theorem run_custom_keys (f : Str → Str) (objective first second : Str) (ku kb ko : String) :
    ({ llm := f, objective := objective, input_url_key := ku,
        input_browser_content_key := kb, output_key := ko } : BoundedPromptChain).run
        first second
      = [(ko, f (({ llm := f, objective := objective } : BoundedPromptChain).finalPrompt
            first second))] := rfl

/-- C8: `run` is a deterministic, state-free function of the chain and its
two inputs: two calls with identical input pairs yield identical output
mappings. -/
theorem run_deterministic (c : BoundedPromptChain) (a b a2 b2 : Str)
    (h1 : a = a2) (h2 : b = b2) : c.run a b = c.run a2 b2 := by
  rw [h1, h2]

/-- C8 witness: determinism applied to the scenario chain at the small
inputs of `test_variable_key_naming`. -/
theorem run_deterministic_witness :
    scenarioChain.run "foo".toList "foo".toList
      = scenarioChain.run "foo".toList "foo".toList :=
  run_deterministic scenarioChain "foo".toList "foo".toList "foo".toList "foo".toList rfl rfl

/-! ## Completion-client theorems -/

/-- A well-formed construction context: the credential is present and the
`openai` dependency resolves to a one-choice stub capability. -/
def goodEnv : Env :=
  { vars := [("OPENAI_API_KEY", "k")]
    openaiInstalled := true
    completionCreate := fun _ => { choices := [{ text := "hello" }] } }

/-- A context with no `OPENAI_API_KEY` set. -/
def emptyEnv : Env :=
  { vars := [], openaiInstalled := true, completionCreate := fun _ => { choices := [] } }

/-- The client produced by a construction with no parameters supplied, in a
well-formed environment. -/
def defaultClient (env : Env) : OpenAI := { client := env.completionCreate }

/-- The client produced when `n = 0` is supplied in a well-formed
environment. -/
def clientN0 : OpenAI := { client := goodEnv.completionCreate, n := 0 }

/-- C3: whenever the remote response to the single issued request carries a
first choice, `__call__` returns exactly that choice's `text` — one string
per call, computed from one application of the held client, with no retry,
caching or streaming. -/
theorem call_returns_first_choice_text (o : OpenAI) (prompt : String)
    (stop : Option (List String)) (c : Choice) (rest : List Choice)
    (h : (o.client (o.requestOf prompt stop)).choices = c :: rest) :
    o.call prompt stop = some c.text := by
  simp [OpenAI.call, h]

/-- C3 witness: the stub capability returns one choice "hello", and the
call returns exactly it. -/
theorem call_returns_first_choice_text_witness :
    (defaultClient goodEnv).call "Tell me a joke." none = some "hello" :=
  call_returns_first_choice_text (defaultClient goodEnv) "Tell me a joke." none
    { text := "hello" } [] rfl

/-- C4: every call in any sequence of calls issues a request carrying
exactly the model identifier, prompt, stop and the seven generation
parameters, and those parameters are the wrapper's construction-time
field values, unchanged by any number of prior calls: the issued requests
are pointwise `requestOf` of the immutable fields. -/
theorem callSeq_forwards_construction_params (o : OpenAI)
    (calls : List (String × Option (List String))) :
    (o.callSeq calls).map Prod.fst = calls.map (fun pc => o.requestOf pc.1 pc.2)
      ∧ ∀ p s, o.requestOf p s
          = { model := o.model_name, prompt := p, stop := s,
              temperature := o.temperature, max_tokens := o.max_tokens,
              top_p := o.top_p, frequency_penalty := o.frequency_penalty,
              presence_penalty := o.presence_penalty, n := o.n, best_of := o.best_of } := by
  refine ⟨?_, fun p s => rfl⟩
  induction calls with
  | nil => rfl
  | cons pc rest ih => simp [OpenAI.callSeq, ih]

/-- C5: whenever `OPENAI_API_KEY` is absent from the environment,
construction fails: the error list records the missing credential (after
any unrecognized-field errors) and no object is produced.  `construct`
never applies the remote capability, so no remote call is attempted. -/
theorem construct_missing_credential_fails (env : Env) (args : OpenAIArgs)
    (h : env.hasKey "OPENAI_API_KEY" = false) :
    (OpenAI.construct env args).1
      = Except.error
          ((args.extra_fields.map fun _ => ConfigurationError.unrecognizedField)
            ++ [ConfigurationError.missingCredential]) := by
  simp [OpenAI.construct, rootErrors, h]

/-- C5 witness: construction in an empty environment fails with exactly the
missing-credential error. -/
theorem construct_missing_credential_fails_witness :
    (OpenAI.construct emptyEnv {}).1
      = Except.error [ConfigurationError.missingCredential] :=
  construct_missing_credential_fails emptyEnv {} rfl

/-- C6 counterexample: with the unrecognized field "foo" supplied in a
well-formed environment, construction does fail with the
unrecognized-field error, but the second component — whether the root
validator read the process environment — is `true`: the failure is not
raised before the environment read and dependency resolution, because the
pydantic v1 pipeline runs the post root validator (whose
`skip_on_failure` is false) even when field errors were already
collected. -/
theorem construct_extra_field_env_read_occurs :
    OpenAI.construct goodEnv { extra_fields := ["foo"] }
      = (Except.error [ConfigurationError.unrecognizedField], true) := rfl

/-- C6 amended: whenever any unrecognized field is supplied, construction
fails in every environment, with the unrecognized-field error leading the
error list; but the failure is raised only after the root validator has
run, so the environment read still occurs (second component `true`). -/
theorem construct_extra_field_fails (env : Env) (args : OpenAIArgs)
    (h : args.extra_fields ≠ []) :
    (OpenAI.construct env args).2 = true ∧
      ∃ errs, (OpenAI.construct env args).1 = Except.error errs ∧
        errs.head? = some ConfigurationError.unrecognizedField := by
  obtain ⟨a, rest, hx⟩ := List.exists_cons_of_ne_nil h
  unfold OpenAI.construct
  simp only [hx, List.map_cons, List.cons_append, if_neg (List.cons_ne_nil _ _)]
  exact ⟨trivial, _, rfl, rfl⟩

/-- C6 amended witness: the amended theorem applied to the well-formed
environment with the unrecognized field "foo". -/
theorem construct_extra_field_fails_witness :
    (OpenAI.construct goodEnv { extra_fields := ["foo"] }).2 = true ∧
      ∃ errs, (OpenAI.construct goodEnv { extra_fields := ["foo"] }).1 = Except.error errs ∧
        errs.head? = some ConfigurationError.unrecognizedField :=
  construct_extra_field_fails goodEnv { extra_fields := ["foo"] }
    (List.cons_ne_nil _ _)

/-- C9 counterexample: construction accepts `n = 0`: it succeeds and
produces a client whose completion count violates `1 ≤ n` — the source
declares `n: int = 1` with no lower-bound validator. -/
theorem construct_accepts_nonpositive_n :
    (OpenAI.construct goodEnv { n := some 0 }).1 = Except.ok clientN0
      ∧ ¬(1 ≤ clientN0.n) :=
  ⟨rfl, by decide⟩

/-- C9 amended: construction enforces no lower bounds: a successfully
constructed client's `n` and `best_of` are exactly the supplied values
(defaulting to 1 when not supplied), whatever integers those are. -/
theorem construct_passes_through_n_best_of (env : Env) (args : OpenAIArgs) (o : OpenAI)
    (h : (OpenAI.construct env args).1 = Except.ok o) :
    o.n = args.n.getD 1 ∧ o.best_of = args.best_of.getD 1 := by
  simp only [OpenAI.construct] at h
  split at h
  · cases h
    exact ⟨rfl, rfl⟩
  · cases h

/-- C9 amended witness: the pass-through theorem applied to the `n = 0`
construction. -/
theorem construct_passes_through_n_best_of_witness :
    clientN0.n = 0 ∧ clientN0.best_of = 1 :=
  construct_passes_through_n_best_of goodEnv { n := some 0 } clientN0 rfl

/-- C10: with no generation parameters supplied, construction succeeds in
any well-formed environment and every configuration default is exactly the
source's: model "text-davinci-002", temperature 0.7, max_tokens 256,
top_p 1, frequency_penalty 0, presence_penalty 0, n 1, best_of 1 — and
`__call__` forwards exactly these values in its request. -/
theorem construct_defaults (env : Env)
    (hk : env.hasKey "OPENAI_API_KEY" = true) (hi : env.openaiInstalled = true) :
    (OpenAI.construct env {}).1 = Except.ok (defaultClient env)
      ∧ ∀ p s, (defaultClient env).requestOf p s
          = { model := "text-davinci-002", prompt := p, stop := s, temperature := 0.7,
              max_tokens := 256, top_p := 1, frequency_penalty := 0, presence_penalty := 0,
              n := 1, best_of := 1 } := by
  constructor
  · simp [OpenAI.construct, rootErrors, hk, hi, defaultClient]
  · intro p s
    rfl

/-- C10 witness: the defaults theorem applied to the well-formed stub
environment and one concrete call. -/
theorem construct_defaults_witness :
    (OpenAI.construct goodEnv {}).1 = Except.ok (defaultClient goodEnv)
      ∧ (defaultClient goodEnv).requestOf "Tell me a joke." none
          = { model := "text-davinci-002", prompt := "Tell me a joke.", stop := none,
              temperature := 0.7, max_tokens := 256, top_p := 1, frequency_penalty := 0,
              presence_penalty := 0, n := 1, best_of := 1 } :=
  ⟨(construct_defaults goodEnv rfl rfl).1,
   (construct_defaults goodEnv rfl rfl).2 "Tell me a joke." none⟩

end LangChain
